import Mathlib

/-!
Verification of the engine-state simulation and telemetry core of the
`streamlit_digital_twin` repository (`src/helpers.py`, `src/app.py`).

The Python source is shallowly embedded below.  Wall-clock time enters the
code only as `int(time.time())`, embedded as an integer number of seconds
(`now : ℤ`); Python's `%` on a positive modulus agrees with `Int.emod`.
Sensor values and scores are embedded as rationals (`ℚ`): every arithmetic
operation the code performs on them is exact decimal arithmetic at the
precision the claims speak about.  The draws of `np.random.normal` and the
values of `np.sin` / `np.cos` are supplied to the embedded functions as
oracle inputs (the code treats them as opaque sample streams); the
properties verified below hold for every value of these inputs.
-/

namespace DigitalTwin

/-- The fixed set of sensor names used throughout `helpers.py`. -/
inductive Sensor where
  | oil_temperature
  | coolant_temperature
  | egt
  | oil_pressure
  | fuel_pressure
  | vibration
  | rpm
deriving DecidableEq

/-- One entry of `STATE_CYCLE` (`helpers.py` lines 22-83): a regime with its
display metadata, duration and per-sensor `(mean, std)` noise parameters. -/
structure StateProfile where
  state    : String
  duration : Nat
  emoji    : String
  color    : String
  sensors  : Sensor → ℚ × ℚ

/-- `STATE_CYCLE[0]` (`helpers.py` lines 23-37). -/
def NORMAL_PROFILE : StateProfile where
  state := "NORMAL"
  duration := 30
  emoji := "🟢"
  color := "#28a745"
  sensors := fun s => match s with
    | .oil_temperature     => (78, 2.0)
    | .coolant_temperature => (87, 1.5)
    | .egt                 => (370, 8.0)
    | .oil_pressure        => (340, 12.0)
    | .fuel_pressure       => (1820, 40.0)
    | .vibration           => (2.2, 0.15)
    | .rpm                 => (1500, 40.0)

/-- `STATE_CYCLE[1]` (`helpers.py` lines 38-52). -/
def DEGRADED_PROFILE : StateProfile where
  state := "DEGRADED"
  duration := 20
  emoji := "🟠"
  color := "#fd7e14"
  sensors := fun s => match s with
    | .oil_temperature     => (98, 3.0)
    | .coolant_temperature => (95, 2.0)
    | .egt                 => (490, 15.0)
    | .oil_pressure        => (215, 18.0)
    | .fuel_pressure       => (1650, 60.0)
    | .vibration           => (3.8, 0.30)
    | .rpm                 => (1380, 70.0)

/-- `STATE_CYCLE[2]` (`helpers.py` lines 53-67). -/
def CRITICAL_PROFILE : StateProfile where
  state := "CRITICAL"
  duration := 20
  emoji := "🔴"
  color := "#dc3545"
  sensors := fun s => match s with
    | .oil_temperature     => (112, 4.0)
    | .coolant_temperature => (104, 3.0)
    | .egt                 => (560, 20.0)
    | .oil_pressure        => (175, 20.0)
    | .fuel_pressure       => (1480, 80.0)
    | .vibration           => (5.5, 0.50)
    | .rpm                 => (1180, 90.0)

/-- `STATE_CYCLE[3]` (`helpers.py` lines 68-82). -/
def RECOVERY_PROFILE : StateProfile where
  state := "RECOVERY"
  duration := 20
  emoji := "🔵"
  color := "#007bff"
  sensors := fun s => match s with
    | .oil_temperature     => (88, 2.5)
    | .coolant_temperature => (90, 2.0)
    | .egt                 => (410, 10.0)
    | .oil_pressure        => (290, 15.0)
    | .fuel_pressure       => (1740, 50.0)
    | .vibration           => (2.8, 0.20)
    | .rpm                 => (1460, 50.0)

/-- `STATE_CYCLE` (`helpers.py` line 22). -/
def STATE_CYCLE : List StateProfile :=
  [NORMAL_PROFILE, DEGRADED_PROFILE, CRITICAL_PROFILE, RECOVERY_PROFILE]

/-- Total cycle duration over an arbitrary cycle table, as the module-level
expression `sum(s['duration'] for s in STATE_CYCLE)` computes it
(`helpers.py` line 85). -/
def totalCycleDurationOf (cycle : List StateProfile) : Nat :=
  (cycle.map StateProfile.duration).sum

/-- `TOTAL_CYCLE_DURATION` (`helpers.py` line 85). -/
def TOTAL_CYCLE_DURATION : Nat := totalCycleDurationOf STATE_CYCLE

/-- Embeds the import-time initialization of `helpers.py` (lines 22-85):
importing the module defines `STATE_CYCLE` and computes
`TOTAL_CYCLE_DURATION`.  The module performs no validation of the cycle
table and this initialization cannot fail; the `Except` result records
that fact (`Except.ok` for every input). -/
def moduleInit (cycle : List StateProfile) : Except String Nat :=
  Except.ok (totalCycleDurationOf cycle)

/-- `elapsed = int(time.time()) % TOTAL_CYCLE_DURATION` (`helpers.py` line
90 and `app.py` line 103), with `now` the integer wall-clock seconds. -/
def elapsedAt (now : ℤ) : Nat := (now % (TOTAL_CYCLE_DURATION : ℤ)).toNat

/-- The `for state in STATE_CYCLE` loop of `get_current_state_profile`
(`helpers.py` lines 91-95): accumulate durations into `cum` and return the
first profile whose cumulative end-time exceeds `elapsed`. -/
def findProfile : List StateProfile → Nat → Nat → Option StateProfile
  | [], _, _ => none
  | s :: rest, elapsed, cum =>
      if elapsed < cum + s.duration then some s
      else findProfile rest elapsed (cum + s.duration)

/-- `get_current_state_profile` (`helpers.py` lines 88-96); the fallback
`return STATE_CYCLE[0]` after the loop is the `Option.getD`. -/
def get_current_state_profile (now : ℤ) : StateProfile :=
  (findProfile STATE_CYCLE (elapsedAt now) 0).getD NORMAL_PROFILE

/-- The state of the profile selected for a given elapsed value; the
composition of `findProfile` with the `.state` projection. -/
def stateAtElapsed (e : Nat) : String :=
  ((findProfile STATE_CYCLE e 0).getD NORMAL_PROFILE).state

/-- The countdown loop of `app.py` lines 104-110: `_remaining = 10`, then
walk the cycle and on the first regime whose cumulative end exceeds
`elapsed` set `_remaining = _cum - _elapsed` and break. -/
def remainingIn : List StateProfile → Nat → Nat → Nat → Nat
  | [], _, _, dflt => dflt
  | s :: rest, elapsed, cum, dflt =>
      if elapsed < cum + s.duration then (cum + s.duration) - elapsed
      else remainingIn rest elapsed (cum + s.duration) dflt

/-- `_remaining` as `app.py` lines 103-110 compute it from the wall clock:
the number of seconds until the next regime transition. -/
def seconds_until_next_transition (now : ℤ) : Nat :=
  remainingIn STATE_CYCLE (elapsedAt now) 0 10

/-- `seconds_until_next_transition` as a function of the elapsed value. -/
def remainingAtElapsed (e : Nat) : Nat := remainingIn STATE_CYCLE e 0 10

/-- One row of the telemetry DataFrame (`helpers.py` lines 139-148 and
153-162): a timestamp and one scalar per sensor. -/
structure Reading where
  timestamp           : ℚ
  oil_temperature     : ℚ
  coolant_temperature : ℚ
  egt                 : ℚ
  oil_pressure        : ℚ
  fuel_pressure       : ℚ
  vibration           : ℚ
  rpm                 : ℚ
deriving DecidableEq

/-- `np.clip(x, lo, hi)` on scalars. -/
def clip (x lo hi : ℚ) : ℚ := min (max x lo) hi

/-- `generate_live_reading` (`helpers.py` lines 99-104).  The draw
`np.random.normal(mean, std)` is embedded as `mean + std * noise s`, with
the standard-normal sample `noise s` supplied as an oracle input. -/
def generate_live_reading (p : StateProfile) (noise : Sensor → ℚ) : Sensor → ℚ :=
  fun s => (p.sensors s).1 + (p.sensors s).2 * noise s

/-- The `new_row` built by `append_live_reading` (`helpers.py` lines
153-162): timestamp `datetime.now()` and each raw sensor value clipped to
its physical range. -/
def liveRow (now : ℚ) (r : Sensor → ℚ) : Reading where
  timestamp           := now
  oil_temperature     := clip (r .oil_temperature) 20 120
  coolant_temperature := clip (r .coolant_temperature) 30 110
  egt                 := clip (r .egt) 200 650
  oil_pressure        := clip (r .oil_pressure) 0 600
  fuel_pressure       := clip (r .fuel_pressure) 0 2500
  vibration           := clip (r .vibration) 0 50
  rpm                 := clip (r .rpm) 600 2200

/-- `DataFrame.tail(k)`: the most recent `k` rows, oldest-first (all rows
when `k` exceeds the length). -/
def pdTail (k : Nat) (l : List Reading) : List Reading := l.drop (l.length - k)

/-- The buffer operation of `append_live_reading` (`helpers.py` line 163):
`pd.concat([df, new_row], ignore_index=True).tail(1000)`. -/
def appendRow (df : List Reading) (row : Reading) : List Reading :=
  pdTail 1000 (df ++ [row])

/-- `SensorDataGenerator.append_live_reading` (`helpers.py` lines 150-163):
generate one live reading, clip it into a new row and trim the buffer to
1000 rows. -/
def append_live_reading (df : List Reading) (p : StateProfile) (now : ℚ)
    (noise : Sensor → ℚ) : List Reading :=
  appendRow df (liveRow now (generate_live_reading p noise))

/-- `np.linspace(0, 0.3, n)[i]` (`helpers.py` line 134), the degradation
ramp: `0.3 * i / (n - 1)`, and `0` for `n ≤ 1`. -/
def degAt (n i : Nat) : ℚ := if n ≤ 1 then 0 else (3 / 10) * i / ((n : ℚ) - 1)

/-- `SensorDataGenerator.generate_data` (`helpers.py` lines 117-148).
`now` is `datetime.now()` in seconds, so row `i` of the
`pd.date_range(start = now - 10 * n, periods = n, freq = 10S)` index has
timestamp `now - 10 * n + 10 * i`.  The values `np.sin(t i)` / `np.cos(t i)`
over `t = np.linspace(0, 4 * pi, n)` are supplied as the oracle inputs
`sinT i` / `cosT i`, and the seeded draw `np.random.normal(0, sigma, n)[i]`
for the `k`-th sensor array as `noise k i` — after `np.random.seed(seed)`
these draws are a deterministic function of the seed alone, so fixing
`noise` fixes the seed.  Each sensor combines its base level, sinusoid,
noise and (for `oil_temperature`, `egt`, `vibration`) the degradation
ramp, then is clipped to its physical range. -/
def generate_data (now : ℚ) (n : Nat) (sinT cosT : Nat → ℚ)
    (noise : Nat → Nat → ℚ) : List Reading :=
  (List.range n).map fun (i : Nat) =>
    { timestamp           := now - 10 * (n : ℚ) + 10 * (i : ℚ)
      oil_temperature     := clip (75 + 15 * sinT i + noise 0 i + degAt n i * 10) 20 120
      coolant_temperature := clip (85 + 10 * sinT i + noise 1 i) 30 110
      egt                 := clip (350 + 50 * sinT i + noise 2 i + degAt n i * 30) 200 650
      oil_pressure        := clip (350 + 50 * cosT i + noise 3 i) 0 600
      fuel_pressure       := clip (1800 + 200 * cosT i + noise 4 i) 0 2500
      vibration           := clip (5 / 2 + (1 / 2) * sinT i + noise 5 i + degAt n i * (3 / 2)) 0 50
      rpm                 := clip (1500 + 300 * sinT i + noise 6 i) 600 2200 }

/-- The seven sensor values of a row, without its timestamp. -/
def sensorValues (r : Reading) : ℚ × ℚ × ℚ × ℚ × ℚ × ℚ × ℚ :=
  (r.oil_temperature, r.coolant_temperature, r.egt, r.oil_pressure,
   r.fuel_pressure, r.vibration, r.rpm)

/-- Every sensor value of the row lies in its declared clamp range. -/
def readingInRange (r : Reading) : Prop :=
  20 ≤ r.oil_temperature ∧ r.oil_temperature ≤ 120 ∧
  30 ≤ r.coolant_temperature ∧ r.coolant_temperature ≤ 110 ∧
  200 ≤ r.egt ∧ r.egt ≤ 650 ∧
  0 ≤ r.oil_pressure ∧ r.oil_pressure ≤ 600 ∧
  0 ≤ r.fuel_pressure ∧ r.fuel_pressure ≤ 2500 ∧
  0 ≤ r.vibration ∧ r.vibration ≤ 50 ∧
  600 ≤ r.rpm ∧ r.rpm ≤ 2200

/-- The dict passed to `HealthStatusCalculator.get_health_status`
(`app.py` lines 226-231): the four sensors the classifier reads, each
possibly absent (`dict.get` supplies the default `0`). -/
structure HealthData where
  oil_temperature : Option ℚ
  egt             : Option ℚ
  vibration       : Option ℚ
  oil_pressure    : Option ℚ

/-- The `anomaly_count` of `get_health_status` (`helpers.py` lines
174-178): one for each of `oil_temperature > 100`, `egt > 500`,
`vibration > 4`, `oil_pressure < 200`, missing sensors defaulting to 0. -/
def anomalyCount (d : HealthData) : Nat :=
  (if d.oil_temperature.getD 0 > 100 then 1 else 0) +
  (if d.egt.getD 0 > 500 then 1 else 0) +
  (if d.vibration.getD 0 > 4 then 1 else 0) +
  (if d.oil_pressure.getD 0 < 200 then 1 else 0)

/-- `HealthStatusCalculator.get_health_status` (`helpers.py` lines
172-183): `(status, anomaly_score, emoji)` from the anomaly count. -/
def get_health_status (d : HealthData) : String × ℚ × String :=
  if anomalyCount d ≥ 3 then ("CRITICAL", 0.90, "🔴")
  else if anomalyCount d ≥ 2 then ("DEGRADED", 0.60, "🟠")
  else if anomalyCount d = 1 then ("DEGRADED", 0.45, "🟠")
  else ("NORMAL", 0.15, "🟢")

/-- `HealthStatusCalculator.calculate_rul` (`helpers.py` lines 185-187). -/
def calculate_rul (anomaly_score : ℚ) : ℚ := max (500 * (1 - anomaly_score)) 0

/-- `HealthStatusCalculator.get_maintenance_recommendation` (`helpers.py`
lines 189-194). -/
def get_maintenance_recommendation (rul : ℚ) : String :=
  if rul < 50 then "⚠️ Immediate maintenance required"
  else if rul < 150 then "🔧 Schedule maintenance soon"
  else if rul < 300 then "📋 Monitor closely — plan ahead"
  else "✅ Continue normal operation"

/-- Round a rational to the nearest integer, ties to even: the rounding
rule of IEEE-754 round-to-nearest. -/
def roundHalfEven (q : ℚ) : ℤ :=
  if q - ⌊q⌋ < 1 / 2 then ⌊q⌋
  else if 1 / 2 < q - ⌊q⌋ then ⌊q⌋ + 1
  else if ⌊q⌋ % 2 = 0 then ⌊q⌋ else ⌊q⌋ + 1

/-- The IEEE-754 binary64 value nearest a positive rational in the normal
range: scale to a 53-bit significand at the exponent `Int.log 2 x` and round
to nearest, ties to even.  (Overflow and subnormals are not modelled; every
value arising in these claims is mid-range.) -/
def roundB64pos (x : ℚ) : ℚ :=
  (roundHalfEven (x * 2 ^ ((52 : ℤ) - Int.log 2 x)) : ℚ) * 2 ^ (Int.log 2 x - 52)

/-- The IEEE-754 binary64 value nearest a rational: zero, positive and
negative cases.  Python floats are binary64, so this is the value a Python
float literal or arithmetic result denotes. -/
def roundB64 (x : ℚ) : ℚ :=
  if x = 0 then 0 else if 0 < x then roundB64pos x else -roundB64pos (-x)

/-- Binary64 subtraction: the exact difference, rounded. -/
def floatSub (a b : ℚ) : ℚ := roundB64 (a - b)

/-- Binary64 multiplication: the exact product, rounded. -/
def floatMul (a b : ℚ) : ℚ := roundB64 (a * b)

/-- `HealthStatusCalculator.calculate_rul` as the Python interpreter
actually evaluates it in IEEE binary64 (`helpers.py` lines 185-187): the
score argument is a binary64 value and each arithmetic operation rounds;
`max` and the later comparisons against the integer thresholds are
exact. -/
def calculate_rul_f64 (s : ℚ) : ℚ := max (floatMul 500 (floatSub 1 s)) 0

/-- A concrete all-zero row, used to instantiate buffer facts. -/
def dummyReading : Reading where
  timestamp           := 0
  oil_temperature     := 0
  coolant_temperature := 0
  egt                 := 0
  oil_pressure        := 0
  fuel_pressure       := 0
  vibration           := 0
  rpm                 := 0

/-- The cycle length as the code computes it. -/
theorem hT90 : TOTAL_CYCLE_DURATION = 90 := by decide

/-- Exhaustive case table for the profile selected at each elapsed second
of the ninety-second cycle. -/
theorem st_cases : ∀ e < 90,
    stateAtElapsed e ∈ (["NORMAL", "DEGRADED", "CRITICAL", "RECOVERY"] : List String) ∧
    (e < 30 → stateAtElapsed e = "NORMAL") ∧
    (30 ≤ e → e < 50 → stateAtElapsed e = "DEGRADED") ∧
    (50 ≤ e → e < 70 → stateAtElapsed e = "CRITICAL") ∧
    (70 ≤ e → stateAtElapsed e = "RECOVERY") := by decide

set_option maxRecDepth 4000 in
/-- Exhaustive case table for the transition countdown at each elapsed
second: bounds, pointwise decrease, and the value at the next boundary. -/
theorem rem_props : ∀ e < 90,
    (1 ≤ remainingAtElapsed e ∧ remainingAtElapsed e ≤ 90 ∧ e + remainingAtElapsed e ≤ 90) ∧
    (∀ d < 90, d < remainingAtElapsed e →
      remainingAtElapsed (e + d) = remainingAtElapsed e - d) ∧
    20 ≤ remainingAtElapsed ((e + remainingAtElapsed e) % 90) ∧
    remainingAtElapsed (e + remainingAtElapsed e - 1) = 1 := by decide

/-- The elapsed cycle position is always below the cycle length. -/
theorem elapsedAt_lt (now : ℤ) : elapsedAt now < 90 := by
  have h1 : 0 ≤ now % 90 := Int.emod_nonneg now (by norm_num)
  have h2 : now % 90 < 90 := Int.emod_lt_of_pos now (by norm_num)
  have hT : (TOTAL_CYCLE_DURATION : ℤ) = 90 := by decide
  unfold elapsedAt
  rw [hT]
  omega

/-- Advancing the wall clock by `k` seconds advances the elapsed cycle
position by `k`, modulo the cycle length. -/
theorem elapsedAt_add (now : ℤ) (k : Nat) :
    elapsedAt (now + k) = (elapsedAt now + k) % 90 := by
  have hT : (TOTAL_CYCLE_DURATION : ℤ) = 90 := by decide
  unfold elapsedAt
  rw [hT]
  omega

/-- Closed form of `calculate_rul` when the linear term is nonnegative. -/
theorem rul_eval (s v : ℚ) (h : 500 * (1 - s) = v) (hv : 0 ≤ v) : calculate_rul s = v := by
  unfold calculate_rul
  rw [h]
  exact max_eq_left hv

/-- Clipping lands in the clamp range whenever the range is nonempty. -/
theorem clip_mem (x lo hi : ℚ) (h : lo ≤ hi) : lo ≤ clip x lo hi ∧ clip x lo hi ≤ hi := by
  unfold clip
  constructor
  · exact le_min (le_max_right x lo) h
  · exact min_le_right _ _

/-- Folding `appendRow` over a batch of rows from the empty buffer keeps
exactly the most recent 1000 rows, in order. -/
theorem foldl_appendRow (rs : List Reading) :
    List.foldl appendRow [] rs = rs.drop (rs.length - 1000) := by
  induction rs using List.reverseRecOn with
  | nil => rfl
  | append_singleton l a ih =>
    rw [List.foldl_append, List.foldl_cons, List.foldl_nil, ih]
    by_cases h : l.length < 1000
    · have h1 : l.length - 1000 = 0 := by omega
      rw [h1, List.drop_zero]
      rfl
    · push_neg at h
      have hlen : (l.drop (l.length - 1000)).length = 1000 := by
        rw [List.length_drop]; omega
      unfold appendRow pdTail
      rw [List.length_append, hlen, List.length_append]
      have h4 : 1000 + [a].length - 1000 = 1 := by simp
      have h5 : l.length + [a].length - 1000 = l.length + 1 - 1000 := by simp
      rw [h4, h5]
      have h6 : 1 ≤ (l.drop (l.length - 1000)).length := by rw [hlen]; omega
      rw [List.drop_append_of_le_length h6, List.drop_drop,
          List.drop_append_of_le_length (show l.length + 1 - 1000 ≤ l.length by omega)]
      have h7 : l.length - 1000 + 1 = l.length + 1 - 1000 := by omega
      rw [h7]

/-- Pin the base-2 logarithm of a rational from explicit power bounds. -/
theorem int_log_two_eq (x : ℚ) (e : ℤ) (hx : 0 < x)
    (h1 : (2 : ℚ) ^ e ≤ x) (h2 : x < (2 : ℚ) ^ (e + 1)) : Int.log 2 x = e := by
  have hb : 1 < (2 : ℕ) := by norm_num
  have ha : e ≤ Int.log 2 x := by
    rw [← Int.zpow_le_iff_le_log hb hx]
    exact_mod_cast h1
  have hc : Int.log 2 x < e + 1 := by
    rw [← Int.lt_zpow_iff_log_lt hb hx]
    exact_mod_cast h2
  omega

/-- Rounding goes down when the fractional part is below one half. -/
theorem roundHalfEven_down (q : ℚ) (m : ℤ) (h1 : (m : ℚ) ≤ q) (h2 : q < m + 1)
    (h3 : q - m < 1 / 2) : roundHalfEven q = m := by
  have hf : ⌊q⌋ = m := Int.floor_eq_iff.2 ⟨h1, h2⟩
  unfold roundHalfEven
  rw [hf, if_pos h3]

/-- Rounding goes up when the fractional part is above one half. -/
theorem roundHalfEven_up (q : ℚ) (m : ℤ) (h1 : (m : ℚ) ≤ q) (h2 : q < m + 1)
    (h3 : 1 / 2 < q - m) : roundHalfEven q = m + 1 := by
  have hf : ⌊q⌋ = m := Int.floor_eq_iff.2 ⟨h1, h2⟩
  unfold roundHalfEven
  rw [hf, if_neg (by linarith), if_pos h3]

/-- A tie at an odd floor rounds up to the even neighbour. -/
theorem roundHalfEven_tie_odd (q : ℚ) (m : ℤ) (h1 : (m : ℚ) ≤ q) (h2 : q < m + 1)
    (h3 : q - m = 1 / 2) (hm : ¬ m % 2 = 0) : roundHalfEven q = m + 1 := by
  have hf : ⌊q⌋ = m := Int.floor_eq_iff.2 ⟨h1, h2⟩
  unfold roundHalfEven
  rw [hf, if_neg (by rw [h3]; norm_num), if_neg (by rw [h3]; norm_num), if_neg hm]

/-- Evaluate `roundB64` on a positive rational from its exponent bounds and
the rounded significand. -/
theorem roundB64_eq_pos (x : ℚ) (e m : ℤ) (hx : 0 < x)
    (h1 : (2 : ℚ) ^ e ≤ x) (h2 : x < (2 : ℚ) ^ (e + 1))
    (hm : roundHalfEven (x * 2 ^ ((52 : ℤ) - e)) = m) :
    roundB64 x = (m : ℚ) * 2 ^ (e - 52) := by
  unfold roundB64 roundB64pos
  rw [if_neg (by positivity), if_pos hx, int_log_two_eq x e hx h1 h2, hm]

/-- The binary64 value of the literal `0.90`. -/
theorem s90eval : roundB64 (0.90 : ℚ) = 8106479329266893 / 9007199254740992 := by
  rw [roundB64_eq_pos 0.90 (-1) 8106479329266893 (by norm_num) (by norm_num) (by norm_num)
      (roundHalfEven_up _ 8106479329266892 (by norm_num) (by norm_num) (by norm_num))]
  norm_num

/-- In binary64, `500 * (1.0 - 0.9)` is `50 - 2 ^ (-46)`, strictly below 50:
the rounding of `0.9` overshoots, the subtraction is exact (Sterbenz), and
the multiplication rounds down past the threshold. -/
theorem rulF64_090 : calculate_rul_f64 (roundB64 0.90) = 50 - 1 / 70368744177664 := by
  have hsub : floatSub 1 (8106479329266893 / 9007199254740992) =
      900719925474099 / 9007199254740992 := by
    unfold floatSub
    rw [show (1 : ℚ) - 8106479329266893 / 9007199254740992 =
        900719925474099 / 9007199254740992 by norm_num]
    rw [roundB64_eq_pos _ (-4) 7205759403792792 (by norm_num) (by norm_num) (by norm_num)
        (roundHalfEven_down _ _ (by norm_num) (by norm_num) (by norm_num))]
    norm_num
  have hmul : floatMul 500 (900719925474099 / 9007199254740992) =
      50 - 1 / 70368744177664 := by
    unfold floatMul
    rw [show (500 : ℚ) * (900719925474099 / 9007199254740992) =
        450359962737049500 / 9007199254740992 by norm_num]
    rw [roundB64_eq_pos _ 5 7036874417766398 (by norm_num) (by norm_num) (by norm_num)
        (roundHalfEven_down _ _ (by norm_num) (by norm_num) (by norm_num))]
    norm_num
  unfold calculate_rul_f64
  rw [s90eval, hsub, hmul]
  exact max_eq_left (by norm_num)

/-- The binary64 value of the literal `0.60`. -/
theorem s60eval : roundB64 (0.60 : ℚ) = 5404319552844595 / 9007199254740992 := by
  rw [roundB64_eq_pos 0.60 (-1) 5404319552844595 (by norm_num) (by norm_num) (by norm_num)
      (roundHalfEven_down _ 5404319552844595 (by norm_num) (by norm_num) (by norm_num))]
  norm_num

/-- In binary64, `500 * (1.0 - 0.6)` is exactly 200. -/
theorem rulF64_060 : calculate_rul_f64 (roundB64 0.60) = 200 := by
  have hsub : floatSub 1 (5404319552844595 / 9007199254740992) =
      3602879701896397 / 9007199254740992 := by
    unfold floatSub
    rw [show (1 : ℚ) - 5404319552844595 / 9007199254740992 =
        3602879701896397 / 9007199254740992 by norm_num]
    rw [roundB64_eq_pos _ (-2) 7205759403792794 (by norm_num) (by norm_num) (by norm_num)
        (roundHalfEven_down _ _ (by norm_num) (by norm_num) (by norm_num))]
    norm_num
  have hmul : floatMul 500 (3602879701896397 / 9007199254740992) = 200 := by
    unfold floatMul
    rw [show (500 : ℚ) * (3602879701896397 / 9007199254740992) =
        1801439850948198500 / 9007199254740992 by norm_num]
    rw [roundB64_eq_pos _ 7 7036874417766400 (by norm_num) (by norm_num) (by norm_num)
        (roundHalfEven_down _ _ (by norm_num) (by norm_num) (by norm_num))]
    norm_num
  unfold calculate_rul_f64
  rw [s60eval, hsub, hmul]
  exact max_eq_left (by norm_num)

/-- The binary64 value of the literal `0.45`. -/
theorem s45eval : roundB64 (0.45 : ℚ) = 8106479329266893 / 18014398509481984 := by
  rw [roundB64_eq_pos 0.45 (-2) 8106479329266893 (by norm_num) (by norm_num) (by norm_num)
      (roundHalfEven_up _ 8106479329266892 (by norm_num) (by norm_num) (by norm_num))]
  norm_num

/-- In binary64, `500 * (1.0 - 0.45)` is exactly 275 (the subtraction hits
a tie that rounds to even). -/
theorem rulF64_045 : calculate_rul_f64 (roundB64 0.45) = 275 := by
  have hsub : floatSub 1 (8106479329266893 / 18014398509481984) =
      4953959590107546 / 9007199254740992 := by
    unfold floatSub
    rw [show (1 : ℚ) - 8106479329266893 / 18014398509481984 =
        9907919180215091 / 18014398509481984 by norm_num]
    rw [roundB64_eq_pos _ (-1) 4953959590107546 (by norm_num) (by norm_num) (by norm_num)
        (roundHalfEven_tie_odd _ 4953959590107545 (by norm_num) (by norm_num) (by norm_num)
          (by norm_num))]
    norm_num
  have hmul : floatMul 500 (4953959590107546 / 9007199254740992) = 275 := by
    unfold floatMul
    rw [show (500 : ℚ) * (4953959590107546 / 9007199254740992) =
        2476979795053773000 / 9007199254740992 by norm_num]
    rw [roundB64_eq_pos _ 8 4837851162214400 (by norm_num) (by norm_num) (by norm_num)
        (roundHalfEven_down _ _ (by norm_num) (by norm_num) (by norm_num))]
    norm_num
  unfold calculate_rul_f64
  rw [s45eval, hsub, hmul]
  exact max_eq_left (by norm_num)

/-- The binary64 value of the literal `0.15`. -/
theorem s15eval : roundB64 (0.15 : ℚ) = 5404319552844595 / 36028797018963968 := by
  rw [roundB64_eq_pos 0.15 (-3) 5404319552844595 (by norm_num) (by norm_num) (by norm_num)
      (roundHalfEven_down _ 5404319552844595 (by norm_num) (by norm_num) (by norm_num))]
  norm_num

/-- In binary64, `500 * (1.0 - 0.15)` is exactly 425. -/
theorem rulF64_015 : calculate_rul_f64 (roundB64 0.15) = 425 := by
  have hsub : floatSub 1 (5404319552844595 / 36028797018963968) =
      7656119366529843 / 9007199254740992 := by
    unfold floatSub
    rw [show (1 : ℚ) - 5404319552844595 / 36028797018963968 =
        30624477466119373 / 36028797018963968 by norm_num]
    rw [roundB64_eq_pos _ (-1) 7656119366529843 (by norm_num) (by norm_num) (by norm_num)
        (roundHalfEven_down _ _ (by norm_num) (by norm_num) (by norm_num))]
    norm_num
  have hmul : floatMul 500 (7656119366529843 / 9007199254740992) = 425 := by
    unfold floatMul
    rw [show (500 : ℚ) * (7656119366529843 / 9007199254740992) =
        3828059683264921500 / 9007199254740992 by norm_num]
    rw [roundB64_eq_pos _ 8 7476679068876800 (by norm_num) (by norm_num) (by norm_num)
        (roundHalfEven_up _ 7476679068876799 (by norm_num) (by norm_num) (by norm_num))]
    norm_num
  unfold calculate_rul_f64
  rw [s15eval, hsub, hmul]
  exact max_eq_left (by norm_num)

/-- Claim C1: for every wall-clock time, regime selection computes
`elapsed = now mod 90` (the total cycle duration `30+20+20+20`), and
returns exactly one of the four regimes — the first in cycle order whose
cumulative end-time (30, 50, 70, 90) exceeds `elapsed`; in particular
elapsed 29 gives NORMAL, 30 gives DEGRADED, 89 gives RECOVERY and now = 90
wraps to elapsed 0 giving NORMAL; the selection is a pure function of
`now`, so repeated calls agree. -/
theorem claim_C1 :
    TOTAL_CYCLE_DURATION = 30 + 20 + 20 + 20 ∧ TOTAL_CYCLE_DURATION = 90 ∧
    (∀ now : ℤ, elapsedAt now = (now % 90).toNat ∧
      (get_current_state_profile now).state ∈
        (["NORMAL", "DEGRADED", "CRITICAL", "RECOVERY"] : List String) ∧
      (elapsedAt now < 30 → (get_current_state_profile now).state = "NORMAL") ∧
      (30 ≤ elapsedAt now → elapsedAt now < 50 →
        (get_current_state_profile now).state = "DEGRADED") ∧
      (50 ≤ elapsedAt now → elapsedAt now < 70 →
        (get_current_state_profile now).state = "CRITICAL") ∧
      (70 ≤ elapsedAt now → (get_current_state_profile now).state = "RECOVERY") ∧
      get_current_state_profile now = get_current_state_profile now) ∧
    (get_current_state_profile 29).state = "NORMAL" ∧
    (get_current_state_profile 30).state = "DEGRADED" ∧
    (get_current_state_profile 89).state = "RECOVERY" ∧
    elapsedAt 90 = 0 ∧ (get_current_state_profile 90).state = "NORMAL" := by
  refine ⟨by decide, by decide, ?_, by decide, by decide, by decide, by decide, by decide⟩
  intro now
  have he := elapsedAt_lt now
  have h := st_cases (elapsedAt now) he
  have hs : (get_current_state_profile now).state = stateAtElapsed (elapsedAt now) := rfl
  have hE : elapsedAt now = (now % 90).toNat := by
    have hT : (TOTAL_CYCLE_DURATION : ℤ) = 90 := by decide
    unfold elapsedAt
    rw [hT]
  exact ⟨hE, by rw [hs]; exact h.1, fun h1 => by rw [hs]; exact h.2.1 h1,
    fun h1 h2 => by rw [hs]; exact h.2.2.1 h1 h2,
    fun h1 h2 => by rw [hs]; exact h.2.2.2.1 h1 h2,
    fun h1 => by rw [hs]; exact h.2.2.2.2 h1, rfl⟩

/-- Witness for claim C1: at `now = 29` the elapsed position is below 30
and the selected regime is NORMAL. -/
theorem claim_C1_witness :
    elapsedAt 29 < 30 ∧ (get_current_state_profile 29).state = "NORMAL" :=
  ⟨by decide, (claim_C1.2.2.1 29).2.2.1 (by decide)⟩

/-- Claim C2: the classifier counts the four order-independent conditions
`oil_temperature > 100`, `egt > 500`, `vibration > 4`,
`oil_pressure < 200` and maps count at least 3 to CRITICAL score 0.90,
count 2 to DEGRADED 0.60, count 1 to DEGRADED 0.45 and count 0 to NORMAL
0.15; the reading `(105, 520, 1, 250)` has count 2 and the full pipeline
gives DEGRADED, score 0.60, RUL 200 and the monitor-closely
recommendation. -/
theorem claim_C2 :
    (∀ d : HealthData,
       anomalyCount d ≤ 4 ∧
       (3 ≤ anomalyCount d → get_health_status d = ("CRITICAL", 0.90, "🔴")) ∧
       (anomalyCount d = 2 → get_health_status d = ("DEGRADED", 0.60, "🟠")) ∧
       (anomalyCount d = 1 → get_health_status d = ("DEGRADED", 0.45, "🟠")) ∧
       (anomalyCount d = 0 → get_health_status d = ("NORMAL", 0.15, "🟢"))) ∧
    anomalyCount (HealthData.mk (some 105) (some 520) (some 1) (some 250)) = 2 ∧
    get_health_status (HealthData.mk (some 105) (some 520) (some 1) (some 250)) =
      ("DEGRADED", 0.60, "🟠") ∧
    calculate_rul 0.60 = 200 ∧
    get_maintenance_recommendation 200 = "📋 Monitor closely — plan ahead" := by
  have main : ∀ d : HealthData,
      anomalyCount d ≤ 4 ∧
      (3 ≤ anomalyCount d → get_health_status d = ("CRITICAL", 0.90, "🔴")) ∧
      (anomalyCount d = 2 → get_health_status d = ("DEGRADED", 0.60, "🟠")) ∧
      (anomalyCount d = 1 → get_health_status d = ("DEGRADED", 0.45, "🟠")) ∧
      (anomalyCount d = 0 → get_health_status d = ("NORMAL", 0.15, "🟢")) := by
    intro d
    have hc : anomalyCount d ≤ 4 := by
      unfold anomalyCount
      split_ifs <;> omega
    refine ⟨hc, ?_, ?_, ?_, ?_⟩
    · intro h
      unfold get_health_status
      rw [if_pos h]
    · intro h
      unfold get_health_status
      rw [if_neg (by omega), if_pos (by omega)]
    · intro h
      unfold get_health_status
      rw [if_neg (by omega), if_neg (by omega), if_pos h]
    · intro h
      unfold get_health_status
      rw [if_neg (by omega), if_neg (by omega), if_neg (by omega)]
  have hcount : anomalyCount (HealthData.mk (some 105) (some 520) (some 1) (some 250)) = 2 := by
    decide
  refine ⟨main, hcount, (main _).2.2.1 hcount, rul_eval _ _ (by norm_num) (by norm_num), ?_⟩
  unfold get_maintenance_recommendation
  rw [if_neg (by norm_num), if_neg (by norm_num), if_pos (by norm_num)]

/-- Witness for claim C2: a reading breaking all four thresholds has count
at least 3 and classifies CRITICAL with score 0.90. -/
theorem claim_C2_witness :
    3 ≤ anomalyCount (HealthData.mk (some 101) (some 501) (some 5) (some 100)) ∧
    get_health_status (HealthData.mk (some 101) (some 501) (some 5) (some 100)) =
      ("CRITICAL", 0.90, "🔴") :=
  ⟨by decide, (claim_C2.1 _).2.1 (by decide)⟩

/-- Claim C3: appending never lets the buffer exceed 1000 rows; appending
to a buffer of exactly 1000 rows evicts exactly the oldest row, keeping
the rest in order with the new row last; appending 1001 rows one by one to
an empty buffer leaves exactly the most recent 1000, oldest-first; and
`append_live_reading` is exactly this buffer operation applied to the
newly generated clipped row. -/
theorem claim_C3 :
    (∀ (df : List Reading) (r : Reading), (appendRow df r).length ≤ 1000) ∧
    (∀ (df : List Reading) (r : Reading), df.length = 1000 →
       appendRow df r = df.tail ++ [r]) ∧
    (∀ rs : List Reading, rs.length = 1001 →
       List.foldl appendRow [] rs = rs.tail) ∧
    (∀ (df : List Reading) (p : StateProfile) (now : ℚ) (noise : Sensor → ℚ),
       append_live_reading df p now noise =
         appendRow df (liveRow now (generate_live_reading p noise))) := by
  refine ⟨?_, ?_, ?_, fun _ _ _ _ => rfl⟩
  · intro df r
    unfold appendRow pdTail
    rw [List.length_drop, List.length_append]
    simp
    omega
  · intro df r h
    unfold appendRow pdTail
    rw [List.length_append, h]
    have h4 : (1000 + [r].length) - 1000 = 1 := by simp
    rw [h4]
    rw [List.drop_append_of_le_length (by omega : 1 ≤ df.length), List.drop_one]
  · intro rs h
    rw [foldl_appendRow, h, List.drop_one]

/-- Witness for claim C3: appending one row to a concrete 1000-row buffer
evicts exactly the first row. -/
theorem claim_C3_witness :
    (List.replicate 1000 dummyReading).length = 1000 ∧
    appendRow (List.replicate 1000 dummyReading) dummyReading =
      (List.replicate 1000 dummyReading).tail ++ [dummyReading] :=
  ⟨by rw [List.length_replicate], claim_C3.2.1 _ _ (by rw [List.length_replicate])⟩

/-- Claim C4: `rul = max(500 * (1 - score), 0)` is nonnegative, equals 500
at score 0 and stays at most 500 for nonnegative scores; the maintenance
recommendation is chosen by first match over the RUL bands below 50, below
150, below 300, and the default. -/
theorem claim_C4 :
    (∀ s : ℚ, calculate_rul s = max (500 * (1 - s)) 0 ∧ 0 ≤ calculate_rul s) ∧
    calculate_rul 0 = 500 ∧
    (∀ s : ℚ, 0 ≤ s → calculate_rul s ≤ 500) ∧
    (∀ r : ℚ,
      (r < 50 → get_maintenance_recommendation r = "⚠️ Immediate maintenance required") ∧
      (50 ≤ r → r < 150 → get_maintenance_recommendation r = "🔧 Schedule maintenance soon") ∧
      (150 ≤ r → r < 300 →
        get_maintenance_recommendation r = "📋 Monitor closely — plan ahead") ∧
      (300 ≤ r → get_maintenance_recommendation r = "✅ Continue normal operation")) := by
  refine ⟨fun s => ⟨rfl, le_max_right _ _⟩, rul_eval _ _ (by norm_num) (by norm_num), ?_, ?_⟩
  · intro s hs
    unfold calculate_rul
    have h1 : 500 * (1 - s) ≤ 500 := by nlinarith
    exact max_le h1 (by norm_num)
  · intro r
    refine ⟨fun h => ?_, fun h1 h2 => ?_, fun h1 h2 => ?_, fun h1 => ?_⟩
    · unfold get_maintenance_recommendation
      rw [if_pos h]
    · unfold get_maintenance_recommendation
      rw [if_neg (by linarith), if_pos h2]
    · unfold get_maintenance_recommendation
      rw [if_neg (by linarith), if_neg (by linarith), if_pos h2]
    · unfold get_maintenance_recommendation
      rw [if_neg (by linarith), if_neg (by linarith), if_neg (by linarith)]

/-- Witness for claim C4: at RUL 100 the second band applies. -/
theorem claim_C4_witness :
    (50 : ℚ) ≤ 100 ∧ (100 : ℚ) < 150 ∧
    get_maintenance_recommendation 100 = "🔧 Schedule maintenance soon" :=
  ⟨by norm_num, by norm_num, (claim_C4.2.2.2 100).2.1 (by norm_num) (by norm_num)⟩

/-- Claim C5: every sensor value of a synthesized reading lies in its
declared clamp range — for the live reading built from any regime and any
normal draw, and for every row of the seeded startup history, whatever the
sinusoid and noise inputs. -/
theorem claim_C5 :
    (∀ (p : StateProfile) (now : ℚ) (noise : Sensor → ℚ),
       readingInRange (liveRow now (generate_live_reading p noise))) ∧
    (∀ (now : ℚ) (n : Nat) (sinT cosT : Nat → ℚ) (noise : Nat → Nat → ℚ),
       List.Forall readingInRange (generate_data now n sinT cosT noise)) := by
  constructor
  · intro p now noise
    unfold readingInRange liveRow
    refine ⟨?_, ?_, ?_, ?_, ?_, ?_, ?_, ?_, ?_, ?_, ?_, ?_, ?_, ?_⟩ <;>
      first
        | exact (clip_mem _ _ _ (by norm_num)).1
        | exact (clip_mem _ _ _ (by norm_num)).2
  · intro now n sinT cosT noise
    rw [List.forall_iff_forall_mem]
    intro r hr
    unfold generate_data at hr
    rw [List.mem_map] at hr
    obtain ⟨i, _, rfl⟩ := hr
    unfold readingInRange
    refine ⟨?_, ?_, ?_, ?_, ?_, ?_, ?_, ?_, ?_, ?_, ?_, ?_, ?_, ?_⟩ <;>
      first
        | exact (clip_mem _ _ _ (by norm_num)).1
        | exact (clip_mem _ _ _ (by norm_num)).2

/-- Counterexample to claim C6: two runs of seeded history generation with
the same seed (the same sample stream) and the same `n = 1`, started ten
seconds apart, produce different sequences — the timestamp column follows
the wall clock, so the sequences are not byte-for-byte equal. -/
theorem claim_C6_counterexample :
    generate_data 0 1 (fun _ => 0) (fun _ => 0) (fun _ _ => 0) ≠
    generate_data 10 1 (fun _ => 0) (fun _ => 0) (fun _ _ => 0) := by
  intro h
  have h' := congrArg (List.map Reading.timestamp) h
  simp only [generate_data, List.map_map] at h'
  rw [show List.range 1 = [0] from rfl] at h'
  simp only [List.map_cons, List.map_nil, Function.comp_apply] at h'
  norm_num at h'

/-- Claim C6 as amended: with the same seed (sample stream) and the same
`n`, the seven sensor-value columns of the generated history are identical
across runs regardless of the start time; only the timestamp column
depends on the wall clock, following the formula
`now - 10 * n + 10 * i`. -/
theorem claim_C6_amended :
    (∀ (now₁ now₂ : ℚ) (n : Nat) (sinT cosT : Nat → ℚ) (noise : Nat → Nat → ℚ),
       (generate_data now₁ n sinT cosT noise).map sensorValues =
         (generate_data now₂ n sinT cosT noise).map sensorValues) ∧
    (∀ (now : ℚ) (n : Nat) (sinT cosT : Nat → ℚ) (noise : Nat → Nat → ℚ),
       (generate_data now n sinT cosT noise).map Reading.timestamp =
         (List.range n).map (fun (i : Nat) => now - 10 * (n : ℚ) + 10 * (i : ℚ))) := by
  constructor
  · intro now₁ now₂ n sinT cosT noise
    unfold generate_data
    rw [List.map_map, List.map_map]
    rfl
  · intro now n sinT cosT noise
    unfold generate_data
    rw [List.map_map]
    rfl

/-- Counterexample to claim C7: the empty cycle table is malformed (its
total duration is 0), yet initialization succeeds — the module performs no
validation and raises no ConfigurationError. -/
theorem claim_C7_counterexample :
    totalCycleDurationOf ([] : List StateProfile) = 0 ∧
    moduleInit ([] : List StateProfile) = Except.ok 0 := ⟨rfl, rfl⟩

/-- Claim C7 as amended: module initialization performs no validation and
succeeds for every cycle table; the shipped table is nonetheless
well-formed — its total duration is 90, which is positive — so
initialization succeeds on it with that value. -/
theorem claim_C7_amended :
    (∀ cycle : List StateProfile, ∃ v, moduleInit cycle = Except.ok v) ∧
    TOTAL_CYCLE_DURATION = 90 ∧ 0 < TOTAL_CYCLE_DURATION ∧
    moduleInit STATE_CYCLE = Except.ok 90 :=
  ⟨fun c => ⟨totalCycleDurationOf c, rfl⟩, by decide, by decide, rfl⟩

/-- Counterexample to claim C8: evaluating a reading with no sensor values
present does not give a neutral no-data status — every missing sensor
defaults to 0, the `oil_pressure < 200` check fires, and the reading is
classified DEGRADED with anomaly score 0.45. -/
theorem claim_C8_counterexample :
    get_health_status (HealthData.mk none none none none) = ("DEGRADED", 0.45, "🟠") := rfl

/-- Claim C8 as amended: `tail` on an empty history returns the empty
sequence and is not an error; but evaluation has no neutral no-data
status — a reading with no sensor values present defaults every sensor to
0, counts one anomaly (`oil_pressure 0 < 200`) and classifies it DEGRADED
with anomaly score 0.45. -/
theorem claim_C8_amended :
    (∀ k : Nat, pdTail k ([] : List Reading) = []) ∧
    anomalyCount (HealthData.mk none none none none) = 1 ∧
    get_health_status (HealthData.mk none none none none) = ("DEGRADED", 0.45, "🟠") :=
  ⟨fun _ => List.drop_nil, by decide, rfl⟩

/-- Claim C9: the transition countdown is always in `[1, 90]`; while the
clock advances within one regime it decreases by exactly the elapsed
amount; and at the moment it would reach 0 it resets upward to the next
regime's full duration (at least 20), having been exactly 1 one second
earlier. -/
theorem claim_C9 :
    (∀ now : ℤ, 1 ≤ seconds_until_next_transition now ∧
       seconds_until_next_transition now ≤ TOTAL_CYCLE_DURATION) ∧
    (∀ now : ℤ, ∀ d : Nat, d < seconds_until_next_transition now →
       seconds_until_next_transition (now + d) = seconds_until_next_transition now - d) ∧
    (∀ now : ℤ, 20 ≤ seconds_until_next_transition
       (now + seconds_until_next_transition now)) ∧
    (∀ now : ℤ, seconds_until_next_transition
       (now + seconds_until_next_transition now - 1) = 1) := by
  have key : ∀ now : ℤ,
      seconds_until_next_transition now = remainingAtElapsed (elapsedAt now) :=
    fun _ => rfl
  refine ⟨?_, ?_, ?_, ?_⟩
  · intro now
    have he := elapsedAt_lt now
    have h := (rem_props (elapsedAt now) he).1
    rw [key, hT90]
    exact ⟨h.1, h.2.1⟩
  · intro now d hd
    have he := elapsedAt_lt now
    have h := rem_props (elapsedAt now) he
    rw [key] at hd
    have hsum : elapsedAt now + remainingAtElapsed (elapsedAt now) ≤ 90 := h.1.2.2
    have hd90 : d < 90 := by omega
    have hadd : elapsedAt (now + d) = elapsedAt now + d := by
      rw [elapsedAt_add]
      exact Nat.mod_eq_of_lt (by omega)
    rw [key, key, hadd]
    exact h.2.1 d hd90 hd
  · intro now
    have he := elapsedAt_lt now
    have h := rem_props (elapsedAt now) he
    have hadd : elapsedAt (now + seconds_until_next_transition now) =
        (elapsedAt now + remainingAtElapsed (elapsedAt now)) % 90 := by
      rw [key, elapsedAt_add]
    rw [key, hadd]
    exact h.2.2.1
  · intro now
    have he := elapsedAt_lt now
    have h := rem_props (elapsedAt now) he
    have h1 : 1 ≤ remainingAtElapsed (elapsedAt now) := h.1.1
    have hsum : elapsedAt now + remainingAtElapsed (elapsedAt now) ≤ 90 := h.1.2.2
    have hcast : (now + seconds_until_next_transition now - 1) =
        now + ((seconds_until_next_transition now - 1 : Nat) : ℤ) := by
      rw [key]
      omega
    have hadd : elapsedAt (now + seconds_until_next_transition now - 1) =
        elapsedAt now + (remainingAtElapsed (elapsedAt now) - 1) := by
      rw [hcast, key, elapsedAt_add]
      exact Nat.mod_eq_of_lt (by omega)
    rw [key, hadd]
    have heq : elapsedAt now + (remainingAtElapsed (elapsedAt now) - 1) =
        elapsedAt now + remainingAtElapsed (elapsedAt now) - 1 := by omega
    rw [heq]
    exact h.2.2.2

/-- Witness for claim C9: at `now = 0` the countdown is 30, and five
seconds later it is exactly 5 less. -/
theorem claim_C9_witness :
    (5 : Nat) < seconds_until_next_transition 0 ∧
    seconds_until_next_transition (0 + (5 : Nat)) = seconds_until_next_transition 0 - 5 :=
  ⟨by decide, claim_C9.2.1 0 5 (by decide)⟩

/-- Counterexample to claim C10: under the IEEE binary64 arithmetic the
program actually uses, a CRITICAL reading (score 0.90) yields
`rul = 500 * (1.0 - 0.9) = 50 - 2 ^ (-46) < 50`, so the pipeline takes the
`rul < 50` branch the claim calls unreachable and returns the
immediate-maintenance recommendation instead of the schedule-soon one. -/
theorem claim_C10_counterexample :
    get_health_status (HealthData.mk (some 101) (some 501) (some 5) (some 100)) =
      ("CRITICAL", 0.90, "🔴") ∧
    calculate_rul_f64 (roundB64 0.90) = 50 - 1 / 70368744177664 ∧
    calculate_rul_f64 (roundB64 0.90) < 50 ∧
    get_maintenance_recommendation (calculate_rul_f64 (roundB64 0.90)) =
      "⚠️ Immediate maintenance required" := by
  refine ⟨rfl, rulF64_090, by rw [rulF64_090]; norm_num, ?_⟩
  rw [rulF64_090]
  unfold get_maintenance_recommendation
  rw [if_pos (by norm_num)]

/-- Claim C10 as amended: the classifier produces exactly the scores 0.15,
0.45, 0.60 and 0.90; under the binary64 arithmetic the program uses, the
resulting RUL values are exactly 425, 275, 200 and `50 - 2 ^ (-46)` — the
last strictly below 50 — so the composed pipeline returns the
immediate-maintenance recommendation precisely on CRITICAL readings and
never on the others. -/
theorem claim_C10_amended :
    ∀ d : HealthData,
      (get_health_status d).2.1 ∈ ([0.15, 0.45, 0.60, 0.90] : List ℚ) ∧
      calculate_rul_f64 (roundB64 (get_health_status d).2.1) ∈
        ([425, 275, 200, 50 - 1 / 70368744177664] : List ℚ) ∧
      ((get_health_status d).1 = "CRITICAL" →
        calculate_rul_f64 (roundB64 (get_health_status d).2.1) < 50 ∧
        get_maintenance_recommendation
          (calculate_rul_f64 (roundB64 (get_health_status d).2.1)) =
          "⚠️ Immediate maintenance required") ∧
      ((get_health_status d).1 ≠ "CRITICAL" →
        get_maintenance_recommendation
          (calculate_rul_f64 (roundB64 (get_health_status d).2.1)) ≠
          "⚠️ Immediate maintenance required") := by
  have rec90 : get_maintenance_recommendation (50 - 1 / 70368744177664 : ℚ) =
      "⚠️ Immediate maintenance required" := by
    unfold get_maintenance_recommendation
    rw [if_pos (by norm_num)]
  have rec200 : get_maintenance_recommendation 200 = "📋 Monitor closely — plan ahead" := by
    unfold get_maintenance_recommendation
    rw [if_neg (by norm_num), if_neg (by norm_num), if_pos (by norm_num)]
  have rec275 : get_maintenance_recommendation 275 = "📋 Monitor closely — plan ahead" := by
    unfold get_maintenance_recommendation
    rw [if_neg (by norm_num), if_neg (by norm_num), if_pos (by norm_num)]
  have rec425 : get_maintenance_recommendation 425 = "✅ Continue normal operation" := by
    unfold get_maintenance_recommendation
    rw [if_neg (by norm_num), if_neg (by norm_num), if_neg (by norm_num)]
  intro d
  unfold get_health_status
  split_ifs
  · refine ⟨by norm_num, ?_, fun _ => ⟨?_, ?_⟩, fun h => absurd rfl h⟩
    · rw [show (("CRITICAL", (0.90 : ℚ), "🔴").2.1) = (0.90 : ℚ) from rfl, rulF64_090]
      norm_num
    · rw [show (("CRITICAL", (0.90 : ℚ), "🔴").2.1) = (0.90 : ℚ) from rfl, rulF64_090]
      norm_num
    · rw [show (("CRITICAL", (0.90 : ℚ), "🔴").2.1) = (0.90 : ℚ) from rfl, rulF64_090, rec90]
  · refine ⟨by norm_num, ?_, fun h => absurd h (by decide), fun _ => ?_⟩
    · rw [show (("DEGRADED", (0.60 : ℚ), "🟠").2.1) = (0.60 : ℚ) from rfl, rulF64_060]
      norm_num
    · rw [show (("DEGRADED", (0.60 : ℚ), "🟠").2.1) = (0.60 : ℚ) from rfl, rulF64_060, rec200]
      decide
  · refine ⟨by norm_num, ?_, fun h => absurd h (by decide), fun _ => ?_⟩
    · rw [show (("DEGRADED", (0.45 : ℚ), "🟠").2.1) = (0.45 : ℚ) from rfl, rulF64_045]
      norm_num
    · rw [show (("DEGRADED", (0.45 : ℚ), "🟠").2.1) = (0.45 : ℚ) from rfl, rulF64_045, rec275]
      decide
  · refine ⟨by norm_num, ?_, fun h => absurd h (by decide), fun _ => ?_⟩
    · rw [show (("NORMAL", (0.15 : ℚ), "🟢").2.1) = (0.15 : ℚ) from rfl, rulF64_015]
      norm_num
    · rw [show (("NORMAL", (0.15 : ℚ), "🟢").2.1) = (0.15 : ℚ) from rfl, rulF64_015, rec425]
      decide

/-- Witness for the amended claim C10: on a concrete CRITICAL reading the
binary64 pipeline returns the immediate-maintenance recommendation. -/
theorem claim_C10_witness :
    (get_health_status (HealthData.mk (some 101) (some 501) (some 5) (some 100))).1 =
      "CRITICAL" ∧
    get_maintenance_recommendation (calculate_rul_f64 (roundB64
      (get_health_status (HealthData.mk (some 101) (some 501) (some 5) (some 100))).2.1)) =
      "⚠️ Immediate maintenance required" :=
  ⟨rfl, ((claim_C10_amended (HealthData.mk (some 101) (some 501) (some 5) (some 100))).2.2.1
    rfl).2⟩

end DigitalTwin
